import Mathlib

/-!
# Verification of the fund-review-tracker pipeline model

A shallow embedding of `src/fund_review_app.py`: the stage vocabulary,
the SQLite-backed record store operations (`add_fund`, `update_stage`,
`update_field`, `delete_fund`), the derived metrics (`pct_complete`,
`days_since`) and the filter mask built over the loaded dataframe.

Python strings are `String`; nullable SQL columns are `Option String`
(or `Option Nat` for the integer column); the `funds` table is a list of
rows plus the AUTOINCREMENT counter (SQLite with `AUTOINCREMENT` never
reuses an id).  Each `execute(...)` in the source opens a connection and
commits, so one `execute` is one atomically committed write.
-/

namespace FundReview

/-- The fixed, ordered stage vocabulary (`STAGES` in the source). -/
def STAGES : List String :=
  ["1 - Assigned",
   "2 - Optional Outreach",
   "3 - Analyst Review",
   "4 - VP Review",
   "5 - Partner Confirmation",
   "6 - Feedback Call",
   "7 - Rejected"]

/-- `PCT_MAP` from the source.  The Python table maps each stage to a float
fraction and `pct_complete` computes `int(round(frac * 100, 0))`; for the
seven concrete fractions `0.10 … 1.00` that IEEE-754 computation yields
exactly the integers recorded here, so the embedding stores the resulting
integer percentages directly. -/
def PCT_MAP : List (String × Nat) :=
  [("1 - Assigned", 10),
   ("2 - Optional Outreach", 20),
   ("3 - Analyst Review", 40),
   ("4 - VP Review", 60),
   ("5 - Partner Confirmation", 80),
   ("6 - Feedback Call", 90),
   ("7 - Rejected", 100)]

/-- The five milestone-date columns of the `funds` table that
`DATE_STAMP_FOR_STAGE` can name. -/
inductive MilestoneCol where
  | analyst_review_date
  | vp_review_date
  | partner_confirm_date
  | feedback_call_date
  | rejected_date
deriving DecidableEq, Repr

/-- `DATE_STAMP_FOR_STAGE` from the source: which stage stamps which
milestone-date column. -/
def DATE_STAMP_FOR_STAGE : List (String × MilestoneCol) :=
  [("3 - Analyst Review", MilestoneCol.analyst_review_date),
   ("4 - VP Review", MilestoneCol.vp_review_date),
   ("5 - Partner Confirmation", MilestoneCol.partner_confirm_date),
   ("6 - Feedback Call", MilestoneCol.feedback_call_date),
   ("7 - Rejected", MilestoneCol.rejected_date)]

/-- `pct_complete(stage)` from the source:
`int(round(PCT_MAP.get(stage, 0) * 100, 0))` — look the stage up in the
percentage table, defaulting to 0 for unknown stages. -/
def pct_complete (stage : String) : Nat :=
  (PCT_MAP.lookup stage).getD 0

/-- `days_since(dstr)` from the source.  The Python code returns `""` for a
falsy (empty) input, tries `pd.to_datetime(dstr).date()` and returns `""` on
any parse exception, and otherwise returns
`(date.today() - parsed).days`.  The pandas parser and the clock are
external collaborators, so the embedding takes them as parameters: `parse`
maps a string to a day number (`none` when pandas would raise) and `today`
is the current day number.  `none` plays the role of the returned `""`;
the function is total, matching the never-raises behaviour of the
`try/except` in the source. -/
def days_since (parse : String → Option Int) (today : Int) (dstr : String) :
    Option Int :=
  if dstr = "" then none
  else
    match parse dstr with
    | none => none
    | some d => some (today - d)

/-- One row of the `funds` table (all columns of the `CREATE TABLE`). -/
structure Fund where
  id : Nat
  fund_id : Option String
  fund_name : Option String
  gp_name : Option String
  vintage_strategy : Option String
  analyst : Option String
  vp : Option String
  partner : Option String
  stage : Option String
  assigned_date : Option String
  outreach_done : Option Nat
  outreach_contact_name : Option String
  outreach_contact_email : Option String
  analyst_review_date : Option String
  vp_review_date : Option String
  partner_confirm_date : Option String
  feedback_call_date : Option String
  rejected_date : Option String
  notes : Option String
  due_date : Option String
deriving DecidableEq, Repr

/-- Read a milestone-date column of a row. -/
def getMilestone (f : Fund) : MilestoneCol → Option String
  | MilestoneCol.analyst_review_date => f.analyst_review_date
  | MilestoneCol.vp_review_date => f.vp_review_date
  | MilestoneCol.partner_confirm_date => f.partner_confirm_date
  | MilestoneCol.feedback_call_date => f.feedback_call_date
  | MilestoneCol.rejected_date => f.rejected_date

/-- Write a milestone-date column of a row (the `UPDATE funds SET {col}=?`
in `update_stage`). -/
def setMilestone (f : Fund) (c : MilestoneCol) (v : Option String) : Fund :=
  match c with
  | MilestoneCol.analyst_review_date => { f with analyst_review_date := v }
  | MilestoneCol.vp_review_date => { f with vp_review_date := v }
  | MilestoneCol.partner_confirm_date => { f with partner_confirm_date := v }
  | MilestoneCol.feedback_call_date => { f with feedback_call_date := v }
  | MilestoneCol.rejected_date => { f with rejected_date := v }

/-- The `funds` table: its rows plus SQLite's AUTOINCREMENT counter
(the next id to assign; never decremented, ids never reused). -/
structure Store where
  nextId : Nat
  funds : List Fund
deriving DecidableEq, Repr

/-- A freshly created database (`init_db` on a new file): no rows,
AUTOINCREMENT ids start at 1. -/
def emptyStore : Store := { nextId := 1, funds := [] }

/-- Whether some row has the given id. -/
def hasId (s : Store) (row_id : Nat) : Bool :=
  s.funds.any fun f => f.id == row_id

/-- The committed effect of
`execute("UPDATE funds SET stage = ? WHERE id = ?")`:
set the stage of every row matching the id (a no-op when none matches). -/
def set_stage (row_id : Nat) (new_stage : String) (s : Store) : Store :=
  { s with
    funds := s.funds.map fun f =>
      if f.id = row_id then { f with stage := some new_stage } else f }

/-- The committed effect of `execute(f"UPDATE funds SET {col}=? WHERE id=?")`
in `update_stage`: unconditionally overwrite the milestone column of every
row matching the id with the supplied date string. -/
def stamp_date (row_id : Nat) (c : MilestoneCol) (d : String) (s : Store) :
    Store :=
  { s with
    funds := s.funds.map fun f =>
      if f.id = row_id then setMilestone f c (some d) else f }

/-- `update_stage(row_id, new_stage)` from the source, with the current
date (`today_str()`) passed explicitly: first commit the stage write, then,
when the target stage is in `DATE_STAMP_FOR_STAGE`, commit a second write
that sets the stage's milestone column to the current date.  There is no
check that the column was previously unset. -/
def update_stage (row_id : Nat) (new_stage : String) (today : String)
    (s : Store) : Store :=
  match DATE_STAMP_FOR_STAGE.lookup new_stage with
  | none => set_stage row_id new_stage s
  | some c => stamp_date row_id c today (set_stage row_id new_stage s)

/-- The sequence of store states committed while `update_stage` runs: each
`execute` opens a connection and commits on exit, so the state after the
stage write is durably visible before the date-stamp write happens. -/
def update_stage_commits (row_id : Nat) (new_stage : String) (today : String)
    (s : Store) : List Store :=
  match DATE_STAMP_FOR_STAGE.lookup new_stage with
  | none => [set_stage row_id new_stage s]
  | some c =>
      [set_stage row_id new_stage s,
       stamp_date row_id c today (set_stage row_id new_stage s)]

/-- The field/value pairs the UI actually passes to
`update_field(row_id, field, value)`: the eight "Save Edits" text fields
and the outreach flag. -/
inductive FieldSet where
  | fund_name (v : String)
  | gp_name (v : String)
  | vintage_strategy (v : String)
  | analyst (v : String)
  | vp (v : String)
  | partner (v : String)
  | due_date (v : String)
  | notes (v : String)
  | outreach_done (v : Nat)
deriving DecidableEq, Repr

/-- Apply one `SET {field}=?` assignment to a row. -/
def applyField (f : Fund) : FieldSet → Fund
  | FieldSet.fund_name v => { f with fund_name := some v }
  | FieldSet.gp_name v => { f with gp_name := some v }
  | FieldSet.vintage_strategy v => { f with vintage_strategy := some v }
  | FieldSet.analyst v => { f with analyst := some v }
  | FieldSet.vp v => { f with vp := some v }
  | FieldSet.partner v => { f with partner := some v }
  | FieldSet.due_date v => { f with due_date := some v }
  | FieldSet.notes v => { f with notes := some v }
  | FieldSet.outreach_done v => { f with outreach_done := some v }

/-- `update_field(row_id, field, value)` from the source:
`execute(f"UPDATE funds SET {field}=? WHERE id=?")` — a single committed
write touching every row matching the id (a no-op when none matches). -/
def update_field (row_id : Nat) (fs : FieldSet) (s : Store) : Store :=
  { s with
    funds := s.funds.map fun f =>
      if f.id = row_id then applyField f fs else f }

/-- `delete_fund(row_id)` from the source:
`execute("DELETE FROM funds WHERE id=?")` — remove every row matching the
id (a no-op when none matches). -/
def delete_fund (row_id : Nat) (s : Store) : Store :=
  { s with funds := s.funds.filter fun f => f.id != row_id }

/-- The dictionary handed to `add_fund` (every `funds` column except the
autoassigned id; any entry may be `None`). -/
structure FundInput where
  fund_id : Option String
  fund_name : Option String
  gp_name : Option String
  vintage_strategy : Option String
  analyst : Option String
  vp : Option String
  partner : Option String
  stage : Option String
  assigned_date : Option String
  outreach_done : Option Nat
  outreach_contact_name : Option String
  outreach_contact_email : Option String
  analyst_review_date : Option String
  vp_review_date : Option String
  partner_confirm_date : Option String
  feedback_call_date : Option String
  rejected_date : Option String
  notes : Option String
  due_date : Option String
deriving DecidableEq, Repr

/-- The row SQLite builds from an `INSERT INTO funds (...) VALUES (...)`:
the input columns plus the freshly assigned id. -/
def mkFund (new_id : Nat) (r : FundInput) : Fund :=
  { id := new_id
    fund_id := r.fund_id
    fund_name := r.fund_name
    gp_name := r.gp_name
    vintage_strategy := r.vintage_strategy
    analyst := r.analyst
    vp := r.vp
    partner := r.partner
    stage := r.stage
    assigned_date := r.assigned_date
    outreach_done := r.outreach_done
    outreach_contact_name := r.outreach_contact_name
    outreach_contact_email := r.outreach_contact_email
    analyst_review_date := r.analyst_review_date
    vp_review_date := r.vp_review_date
    partner_confirm_date := r.partner_confirm_date
    feedback_call_date := r.feedback_call_date
    rejected_date := r.rejected_date
    notes := r.notes
    due_date := r.due_date }

/-- `add_fund(record)` from the source: build an `INSERT` over exactly the
keys of the dictionary and commit it.  No field is validated, no error is
ever produced for missing values (the table has no NOT NULL constraints),
and nothing is returned; SQLite assigns the next AUTOINCREMENT id. -/
def add_fund (r : FundInput) (s : Store) : Store :=
  { nextId := s.nextId + 1, funds := s.funds ++ [mkFund s.nextId r] }

/-- The error vocabulary the specification names for store operations.
The source never constructs either value. -/
inductive DBError where
  | notFound
  | validation
deriving DecidableEq, Repr

/-- The caller-visible result of `update_stage`.  `execute` commits
unconditionally and an SQL `UPDATE` whose `WHERE` matches no row succeeds
silently, so the call always returns success — no `DBError` is ever
reported. -/
def update_stage_result (row_id : Nat) (new_stage : String) (today : String)
    (s : Store) : Except DBError Store :=
  Except.ok (update_stage row_id new_stage today s)

/-- The caller-visible result of `update_field`: always success, for the
same reason as `update_stage_result`. -/
def update_field_result (row_id : Nat) (fs : FieldSet) (s : Store) :
    Except DBError Store :=
  Except.ok (update_field row_id fs s)

/-- The caller-visible result of `delete_fund`: an SQL `DELETE` matching no
row succeeds silently, so the call always returns success. -/
def delete_fund_result (row_id : Nat) (s : Store) : Except DBError Store :=
  Except.ok (delete_fund row_id s)

/-- The caller-visible result of `add_fund`: the `INSERT` succeeds for any
input dictionary built from the form — no `ValidationError` exists in the
source. -/
def add_fund_result (r : FundInput) (s : Store) : Except DBError Store :=
  Except.ok (add_fund r s)

/-- Drop leading whitespace characters from a character list. -/
def dropSpace : List Char → List Char
  | [] => []
  | c :: t => if c.isWhitespace then dropSpace t else c :: t

/-- Python's `str.strip()` with no arguments: remove whitespace from both
ends (implemented structurally over the character list so that concrete
instances evaluate by kernel reduction). -/
def stripStr (s : String) : String :=
  ⟨(dropSpace (dropSpace s.data).reverse).reverse⟩

/-- The payload of the `new_fund` form (lines 146-169 of the source).
Text inputs always yield strings; the two `st.date_input` widgets always
yield a formatted `YYYY-MM-DD` string; the stage comes from a
`st.selectbox` over `STAGES` whose default is index 0 but which the user
may set to any member of the vocabulary. -/
structure NewFundForm where
  fund_id : String
  fund_name : String
  gp_name : String
  vintage_strategy : String
  analyst : String
  vp : String
  partner : String
  stage : String
  assigned_date : String
  outreach_done : Bool
  outreach_contact_name : String
  outreach_contact_email : String
  due_date : String
  notes : String
deriving DecidableEq, Repr

/-- The dictionary the form submit handler passes to `add_fund`
(lines 171-191): text fields stripped, the selected stage and formatted
dates as-is, the outreach checkbox as 0/1, and every one of the five
milestone-date columns explicitly `None`. -/
def new_fund_record (form : NewFundForm) : FundInput :=
  { fund_id := some (stripStr form.fund_id)
    fund_name := some (stripStr form.fund_name)
    gp_name := some (stripStr form.gp_name)
    vintage_strategy := some (stripStr form.vintage_strategy)
    analyst := some (stripStr form.analyst)
    vp := some (stripStr form.vp)
    partner := some (stripStr form.partner)
    stage := some form.stage
    assigned_date := some form.assigned_date
    outreach_done := some (if form.outreach_done then 1 else 0)
    outreach_contact_name := some (stripStr form.outreach_contact_name)
    outreach_contact_email := some (stripStr form.outreach_contact_email)
    analyst_review_date := none
    vp_review_date := none
    partner_confirm_date := none
    feedback_call_date := none
    rejected_date := none
    notes := some form.notes
    due_date := some form.due_date }

/-- `load_data()` from the source: `SELECT * FROM funds ORDER BY id DESC`.
`idGe a b` is the descending-id comparison used for that ordering. -/
def idGe (a b : Fund) : Prop := b.id ≤ a.id

instance : DecidableRel idGe := fun a b =>
  inferInstanceAs (Decidable (b.id ≤ a.id))

instance : IsTotal Fund idGe := ⟨fun a b => Nat.le_total b.id a.id⟩

instance : IsTrans Fund idGe := ⟨fun _ _ _ h1 h2 => Nat.le_trans h2 h1⟩

/-- `load_data()` from the source: the rows of `funds` ordered by
descending id (ids are unique, so any sort realises the SQL ordering). -/
def load_data (s : Store) : List Fund := List.insertionSort idGe s.funds

/-- Lower-case a string (the `case=False` normalisation of
`Series.str.contains`). -/
def lowerStr (s : String) : String := s.map Char.toLower

/-- Substring occurrence test over character lists. -/
def containsChars (pat : List Char) : List Char → Bool
  | [] => pat.isEmpty
  | c :: t => pat.isPrefixOf (c :: t) || containsChars pat t

/-- `Series.str.contains(pat, case=False, na=False)` applied to one cell:
a NULL cell never matches (`na=False`); otherwise case-insensitive
substring containment. -/
def strContainsCI (cell : Option String) (pat : String) : Bool :=
  match cell with
  | none => false
  | some s => containsChars (lowerStr pat).toList (lowerStr s).toList

/-- `df["stage"].isin(stage_filter)` applied to one cell: a NULL stage is
in no list. -/
def stageMem (f : Fund) (stages : List String) : Bool :=
  match f.stage with
  | none => false
  | some st => decide (st ∈ stages)

/-- The filter widgets of the page: the stage multiselect (default: all of
`STAGES`) and the three free-text inputs (default: `""`). -/
structure FilterSpec where
  stages : List String
  analyst : String
  vp : String
  text : String
deriving DecidableEq, Repr

/-- The free-text search clause (lines 217-223): strip the query, then
match it against fund name, GP name or fund id. -/
def textMatch (f : Fund) (query : String) : Bool :=
  let q := stripStr query
  strContainsCI f.fund_name q || strContainsCI f.gp_name q ||
    strContainsCI f.fund_id q

/-- The mask built at lines 212-223, per row: start from the stage `isin`
test and AND in each clause only when its text input is non-empty (Python
truthiness of the string). -/
def passes (spec : FilterSpec) (f : Fund) : Bool :=
  let m1 := stageMem f spec.stages
  let m2 :=
    if spec.analyst ≠ "" then m1 && strContainsCI f.analyst spec.analyst
    else m1
  let m3 :=
    if spec.vp ≠ "" then m2 && strContainsCI f.vp spec.vp else m2
  if spec.text ≠ "" then m3 && textMatch f spec.text else m3

/-- Modelled from the spec: "All predicates are conjunctive; absence of a
filter clause is treated as match all" — the mask restated as one
conjunction, to be compared with `passes` built from the source. -/
def passes_conj (spec : FilterSpec) (f : Fund) : Bool :=
  stageMem f spec.stages &&
    (decide (spec.analyst = "") || strContainsCI f.analyst spec.analyst) &&
    (decide (spec.vp = "") || strContainsCI f.vp spec.vp) &&
    (decide (spec.text = "") || textMatch f spec.text)

/-- The widgets' default state: every stage selected, all text inputs
empty. -/
def emptyFilter : FilterSpec :=
  { stages := STAGES, analyst := "", vp := "", text := "" }

/-- `view = df[mask]`: keep the loaded rows passing the mask, in order. -/
def filtered (spec : FilterSpec) (rows : List Fund) : List Fund :=
  rows.filter (passes spec)

/-- The store paired with a ghost history: `reached i` lists every stage
value the row with id `i` has ever held (most recent first).  The ghost
component only records what happened; the `store` component evolves by the
source's operations alone. -/
structure GStore where
  store : Store
  reached : Nat → List String

/-- The mutating operations the page exposes: submit the new-fund form,
press "Update Stage", press "Update Outreach" / "Save Edits" (one field at
a time), press "Delete Fund". -/
inductive Op where
  | addFund (form : NewFundForm)
  | advanceStage (row_id : Nat) (new_stage : String) (today : String)
  | editField (row_id : Nat) (fs : FieldSet)
  | deleteFund (row_id : Nat)

/-- One UI operation on the store, with the ghost history maintained
alongside: creation records the form's initial stage, a stage update on an
existing row records the new stage, field edits and deletes record
nothing. -/
def gStep (gs : GStore) : Op → GStore
  | Op.addFund form =>
      { store := add_fund (new_fund_record form) gs.store
        reached := fun i =>
          if i = gs.store.nextId then [form.stage] else gs.reached i }
  | Op.advanceStage row_id st today =>
      { store := update_stage row_id st today gs.store
        reached := fun i =>
          if hasId gs.store row_id = true ∧ i = row_id then
            st :: gs.reached i
          else gs.reached i }
  | Op.editField row_id fs =>
      { store := update_field row_id fs gs.store, reached := gs.reached }
  | Op.deleteFund row_id =>
      { store := delete_fund row_id gs.store, reached := gs.reached }

/-- The fresh database with an empty history. -/
def gInit : GStore := { store := emptyStore, reached := fun _ => [] }

/-- Run a sequence of UI operations from the fresh database. -/
def gRun (ops : List Op) : GStore := ops.foldl gStep gInit

/-- Auxiliary invariant: every stored id is below the AUTOINCREMENT
counter. -/
def IdBound (gs : GStore) : Prop :=
  ∀ f ∈ gs.store.funds, f.id < gs.store.nextId

/-- The milestone-provenance invariant: a non-empty milestone date on a
stored row is only possible if that row's stage has held the associated
stage at some point. -/
def MilestoneInv (gs : GStore) : Prop :=
  ∀ f ∈ gs.store.funds, ∀ st c, (st, c) ∈ DATE_STAMP_FOR_STAGE →
    getMilestone f c ≠ none → st ∈ gs.reached f.id

/-- A representative stored row used by the concrete scenarios. -/
def sampleFund : Fund :=
  { id := 1
    fund_id := some "F-1"
    fund_name := some "Acme Fund III"
    gp_name := some "Acme GP"
    vintage_strategy := some ""
    analyst := some "alice"
    vp := some "bob"
    partner := some ""
    stage := some "1 - Assigned"
    assigned_date := some "2024-01-10"
    outreach_done := some 0
    outreach_contact_name := some ""
    outreach_contact_email := some ""
    analyst_review_date := none
    vp_review_date := none
    partner_confirm_date := none
    feedback_call_date := none
    rejected_date := none
    notes := some ""
    due_date := some "2024-02-01" }

/-- A one-row store holding `sampleFund`. -/
def sampleStore : Store := { nextId := 2, funds := [sampleFund] }

/-- `sampleStore` with the analyst-review milestone already stamped on an
earlier day. -/
def stampedStore : Store :=
  { nextId := 2
    funds := [{ sampleFund with analyst_review_date := some "2024-01-01" }] }

/-- An `add_fund` input dictionary with every column `None` (in
particular no fund name and no assigned date). -/
def blankInput : FundInput :=
  { fund_id := none, fund_name := none, gp_name := none
    vintage_strategy := none, analyst := none, vp := none, partner := none
    stage := none, assigned_date := none, outreach_done := none
    outreach_contact_name := none, outreach_contact_email := none
    analyst_review_date := none, vp_review_date := none
    partner_confirm_date := none, feedback_call_date := none
    rejected_date := none, notes := none, due_date := none }

/-- A filled new-fund form whose stage selectbox was left on the default
first stage. -/
def baseForm : NewFundForm :=
  { fund_id := "F-1", fund_name := "Acme Fund III", gp_name := "Acme GP"
    vintage_strategy := "", analyst := "alice", vp := "bob", partner := ""
    stage := "1 - Assigned", assigned_date := "2024-01-10"
    outreach_done := false, outreach_contact_name := ""
    outreach_contact_email := "", due_date := "2024-02-01", notes := "" }

/-- The same form with the stage selectbox moved to the last entry before
submitting. -/
def rejForm : NewFundForm := { baseForm with stage := "7 - Rejected" }

/-- Create a fund on the default form, then advance it to Analyst
Review. -/
def demoOps : List Op :=
  [Op.addFund baseForm, Op.advanceStage 1 "3 - Analyst Review" "2024-06-01"]

/-- The row produced by `demoOps`. -/
def demoFund : Fund :=
  { sampleFund with stage := some "3 - Analyst Review"
                    analyst_review_date := some "2024-06-01" }

/-- A concrete stand-in for the pandas date parser, recognising a single
date string (day number of 2024-01-10). -/
def parseDemo : String → Option Int :=
  fun s => if s = "2024-01-10" then some 19732 else none

end FundReview

namespace FundReview

theorem setMilestone_id (f : Fund) (c : MilestoneCol) (v : Option String) :
    (setMilestone f c v).id = f.id := by cases c <;> rfl

theorem setMilestone_stage (f : Fund) (c : MilestoneCol) (v : Option String) :
    (setMilestone f c v).stage = f.stage := by cases c <;> rfl

theorem getMilestone_setMilestone (f : Fund) (c : MilestoneCol)
    (v : Option String) : getMilestone (setMilestone f c v) c = v := by
  cases c <;> rfl

/-- After `update_stage` to a milestone stage, every row carrying the
targeted id has the new stage and its milestone column equal to the
supplied current date (shared workhorse for the stamping claims). -/
theorem update_stage_row_spec (row_id : Nat) (st today : String)
    (c : MilestoneCol) (s : Store)
    (hc : DATE_STAMP_FOR_STAGE.lookup st = some c) :
    ∀ f ∈ (update_stage row_id st today s).funds, f.id = row_id →
      f.stage = some st ∧ getMilestone f c = some today := by
  intro f hf hid
  simp only [update_stage, hc, stamp_date, set_stage, List.map_map,
    List.mem_map, Function.comp] at hf
  obtain ⟨f0, _, rfl⟩ := hf
  by_cases h0 : f0.id = row_id
  · simp only [h0, if_pos, setMilestone_id]
    exact ⟨by rw [setMilestone_stage], getMilestone_setMilestone _ _ _⟩
  · simp only [if_neg h0] at hid ⊢
    exact absurd hid h0

/-- C10: for every string outside the stage vocabulary (the keys of
`PCT_MAP` are exactly `STAGES`), `pct_complete` falls through
`PCT_MAP.get(stage, 0)` to the default and returns 0 — it never fails. -/
theorem pct_complete_default (st : String) (h : st ∉ STAGES) :
    pct_complete st = 0 := by
  simp only [STAGES, List.mem_cons, List.not_mem_nil, or_false, not_or] at h
  obtain ⟨h1, h2, h3, h4, h5, h6, h7⟩ := h
  simp [pct_complete, PCT_MAP, List.lookup, beq_eq_false_iff_ne.mpr h1,
    beq_eq_false_iff_ne.mpr h2, beq_eq_false_iff_ne.mpr h3,
    beq_eq_false_iff_ne.mpr h4, beq_eq_false_iff_ne.mpr h5,
    beq_eq_false_iff_ne.mpr h6, beq_eq_false_iff_ne.mpr h7]

/-- Witness for `pct_complete_default` at the empty string. -/
theorem pct_complete_default_witness :
    "" ∉ STAGES ∧ pct_complete "" = 0 :=
  ⟨by decide, pct_complete_default "" (by decide)⟩

/-- C7: `pct_complete` always lands in 0..100 (the result is a natural
number, so only the upper bound is substantive), is monotonically
non-decreasing along the canonical order of `STAGES`, and maps the
Rejected stage to 100. -/
theorem pct_complete_range_mono :
    (∀ st : String, pct_complete st ≤ 100) ∧
    (∀ i j : Fin STAGES.length, i ≤ j →
      pct_complete (STAGES.get i) ≤ pct_complete (STAGES.get j)) ∧
    pct_complete "7 - Rejected" = 100 := by
  refine ⟨?_, ?_, by decide⟩
  · intro st
    simp only [pct_complete, PCT_MAP, List.lookup]
    repeat first
      | split
      | simp only [Option.getD_some, Option.getD_none]
      | omega
  · decide

/-- Witness for `pct_complete_range_mono`: the monotonicity component at
the first and last stage. -/
theorem pct_complete_range_mono_witness :
    pct_complete (STAGES.get ⟨0, by decide⟩) ≤
      pct_complete (STAGES.get ⟨6, by decide⟩) :=
  pct_complete_range_mono.2.1 ⟨0, by decide⟩ ⟨6, by decide⟩ (by decide)

/-- Repeating the same `update_stage` call (same target, same current
date) leaves the store unchanged: both the stage write and the
unconditional date overwrite are idempotent for a fixed date. -/
theorem update_stage_idem (row_id : Nat) (st today : String) (s : Store) :
    update_stage row_id st today (update_stage row_id st today s) =
      update_stage row_id st today s := by
  cases hc : DATE_STAMP_FOR_STAGE.lookup st with
  | none =>
      simp only [update_stage, hc, set_stage, List.map_map]
      congr 1
      refine List.map_congr_left ?_
      intro f _
      simp only [Function.comp_apply]
      by_cases h : f.id = row_id <;> simp [h]
  | some c =>
      simp only [update_stage, hc, stamp_date, set_stage, List.map_map]
      congr 1
      refine List.map_congr_left ?_
      intro f _
      simp only [Function.comp_apply]
      by_cases h : f.id = row_id <;> cases c <;> simp [h, setMilestone]

/-- C1 counterexample: in `stampedStore` the analyst-review milestone is
already set (to 2024-01-01), yet advancing the record to
"3 - Analyst Review" on 2024-06-01 replaces the stamp — the stored date
is not left unchanged. -/
theorem update_stage_overwrite_cex :
    ((stampedStore.funds.map fun f => f.analyst_review_date) =
      [some "2024-01-01"]) ∧
    (((update_stage 1 "3 - Analyst Review" "2024-06-01"
        stampedStore).funds.map fun f => f.analyst_review_date) =
      [some "2024-06-01"]) := by decide

/-- C1 amended: `update_stage` to a milestone stage always overwrites that
stage's milestone date with the current date, whether or not it was
previously set; hence two transitions to the same stage performed on the
same day yield the same stamped date (repeating the call verbatim is a
no-op), but a stamp from an earlier day is not preserved. -/
theorem update_stage_stamp_overwrite (row_id : Nat) (st today : String)
    (c : MilestoneCol) (s : Store)
    (hc : DATE_STAMP_FOR_STAGE.lookup st = some c) :
    (∀ f ∈ (update_stage row_id st today s).funds, f.id = row_id →
      getMilestone f c = some today) ∧
    update_stage row_id st today (update_stage row_id st today s) =
      update_stage row_id st today s := by
  refine ⟨?_, update_stage_idem row_id st today s⟩
  intro f hf hid
  exact (update_stage_row_spec row_id st today c s hc f hf hid).2

/-- Witness for `update_stage_stamp_overwrite` on the sample store. -/
theorem update_stage_stamp_overwrite_witness :
    DATE_STAMP_FOR_STAGE.lookup "3 - Analyst Review" =
      some MilestoneCol.analyst_review_date ∧
    (∀ f ∈ (update_stage 1 "3 - Analyst Review" "2024-06-01"
        sampleStore).funds, f.id = 1 →
      getMilestone f MilestoneCol.analyst_review_date = some "2024-06-01") :=
  ⟨by decide,
   (update_stage_stamp_overwrite 1 "3 - Analyst Review" "2024-06-01"
      MilestoneCol.analyst_review_date sampleStore (by decide)).1⟩

/-- C2 counterexample: running
`update_stage 1 "3 - Analyst Review" ...` on `sampleStore` commits two
distinct store states; the first committed state already shows the new
stage while the milestone date is still unset, so a partial write (stage
changed, date not stamped) is durably visible before the second commit. -/
theorem update_stage_partial_commit_cex :
    (update_stage_commits 1 "3 - Analyst Review" "2024-06-01" sampleStore =
      [set_stage 1 "3 - Analyst Review" sampleStore,
       update_stage 1 "3 - Analyst Review" "2024-06-01" sampleStore]) ∧
    (((set_stage 1 "3 - Analyst Review" sampleStore).funds.map
        fun f => (f.stage, f.analyst_review_date)) =
      [(some "3 - Analyst Review", none)]) ∧
    (((update_stage 1 "3 - Analyst Review" "2024-06-01"
        sampleStore).funds.map fun f => (f.stage, f.analyst_review_date)) =
      [(some "3 - Analyst Review", some "2024-06-01")]) ∧
    set_stage 1 "3 - Analyst Review" sampleStore ≠
      update_stage 1 "3 - Analyst Review" "2024-06-01" sampleStore := by
  decide

/-- C2 amended: `update_stage` to a milestone stage is two separately
committed writes — the stage write alone is committed first, then the
date stamp — so the intermediate stage-only state is observable; the
final committed state does carry both the new stage and the stamped
date on every row with the targeted id. -/
theorem update_stage_commit_decomposition (row_id : Nat) (st today : String)
    (c : MilestoneCol) (s : Store)
    (hc : DATE_STAMP_FOR_STAGE.lookup st = some c) :
    update_stage_commits row_id st today s =
      [set_stage row_id st s, update_stage row_id st today s] ∧
    (∀ f ∈ (update_stage row_id st today s).funds, f.id = row_id →
      f.stage = some st ∧ getMilestone f c = some today) := by
  refine ⟨?_, update_stage_row_spec row_id st today c s hc⟩
  simp [update_stage_commits, update_stage, hc]

/-- Witness for `update_stage_commit_decomposition` on the sample
store. -/
theorem update_stage_commit_decomposition_witness :
    update_stage_commits 1 "4 - VP Review" "2024-06-01" sampleStore =
      [set_stage 1 "4 - VP Review" sampleStore,
       update_stage 1 "4 - VP Review" "2024-06-01" sampleStore] :=
  (update_stage_commit_decomposition 1 "4 - VP Review" "2024-06-01"
    MilestoneCol.vp_review_date sampleStore (by decide)).1

/-- C3 counterexample: the empty store has no row with id 1, yet
`update_stage`, `update_field` and `delete_fund` all report success (an
SQL `UPDATE`/`DELETE` matching no row is a silent no-op) — no not-found
condition reaches the caller. -/
theorem missing_id_not_reported_cex :
    hasId emptyStore 1 = false ∧
    update_stage_result 1 "3 - Analyst Review" "2024-06-01" emptyStore =
      Except.ok emptyStore ∧
    update_stage_result 1 "3 - Analyst Review" "2024-06-01" emptyStore ≠
      Except.error DBError.notFound ∧
    update_field_result 1 (FieldSet.notes "x") emptyStore =
      Except.ok emptyStore ∧
    delete_fund_result 1 emptyStore = Except.ok emptyStore := by
  refine ⟨by decide, rfl, ?_, rfl, rfl⟩
  intro h
  exact Except.noConfusion h

/-- C3 amended: an update or delete targeting an id with no stored row
performs no mutation at all — but it succeeds silently instead of
reporting a not-found condition. -/
theorem missing_id_silent_noop (row_id : Nat) (st today : String)
    (fs : FieldSet) (s : Store) (h : hasId s row_id = false) :
    update_stage row_id st today s = s ∧
    update_field row_id fs s = s ∧
    delete_fund row_id s = s ∧
    update_stage_result row_id st today s = Except.ok s ∧
    update_field_result row_id fs s = Except.ok s ∧
    delete_fund_result row_id s = Except.ok s := by
  have hniff : ∀ f ∈ s.funds, ¬ f.id = row_id := by
    simp only [hasId] at h
    intro f hf he
    have hany : s.funds.any (fun g => g.id == row_id) = true :=
      List.any_eq_true.mpr ⟨f, hf, beq_iff_eq.mpr he⟩
    rw [h] at hany
    exact Bool.false_ne_true hany
  have hmap : ∀ g : Fund → Fund,
      (s.funds.map fun f => if f.id = row_id then g f else f) = s.funds := by
    intro g
    refine (List.map_congr_left ?_).trans (List.map_id s.funds)
    intro f hf
    simp [hniff f hf]
  have hset : set_stage row_id st s = s := by
    simp only [set_stage, hmap fun f => { f with stage := some st }]
  have hupd : update_stage row_id st today s = s := by
    cases hc : DATE_STAMP_FOR_STAGE.lookup st with
    | none => simpa only [update_stage, hc] using hset
    | some c =>
        simp only [update_stage, hc, hset, stamp_date,
          hmap fun f => setMilestone f c (some today)]
  have hfld : update_field row_id fs s = s := by
    simp only [update_field, hmap fun f => applyField f fs]
  have hdel : delete_fund row_id s = s := by
    simp only [delete_fund]
    have : (s.funds.filter fun f => f.id != row_id) = s.funds := by
      refine List.filter_eq_self.mpr ?_
      intro f hf
      simpa using hniff f hf
    simp [this]
  exact ⟨hupd, hfld, hdel, by simp [update_stage_result, hupd],
    by simp [update_field_result, hfld], by simp [delete_fund_result, hdel]⟩

/-- Witness for `missing_id_silent_noop`: id 1 in the empty store. -/
theorem missing_id_silent_noop_witness :
    hasId emptyStore 1 = false ∧
    delete_fund 1 emptyStore = emptyStore :=
  ⟨by decide,
   (missing_id_silent_noop 1 "2 - Optional Outreach" "2024-06-01"
      (FieldSet.notes "n") emptyStore (by decide)).2.2.1⟩

/-- C4 counterexample: inserting `blankInput` — no fund name, no assigned
date — succeeds: a row is created and no `ValidationError` is reported. -/
theorem add_fund_no_validation_cex :
    blankInput.fund_name = none ∧
    blankInput.assigned_date = none ∧
    (add_fund blankInput emptyStore).funds.length = 1 ∧
    add_fund_result blankInput emptyStore ≠
      Except.error DBError.validation := by
  refine ⟨rfl, rfl, rfl, ?_⟩
  intro h
  exact Except.noConfusion h

/-- C4 amended: `add_fund` performs no validation and reports no error:
for every input dictionary, including ones missing the fund name or the
assigned date, it inserts exactly one new row; SQLite assigns the row the
fresh AUTOINCREMENT id (distinct from every stored id when ids are below
the counter), but `add_fund` does not return it. -/
theorem add_fund_inserts_unvalidated (r : FundInput) (s : Store)
    (hb : ∀ f ∈ s.funds, f.id < s.nextId) :
    (add_fund r s).funds = s.funds ++ [mkFund s.nextId r] ∧
    (add_fund r s).nextId = s.nextId + 1 ∧
    (∀ f ∈ s.funds, f.id ≠ (mkFund s.nextId r).id) ∧
    add_fund_result r s = Except.ok (add_fund r s) := by
  refine ⟨rfl, rfl, ?_, rfl⟩
  intro f hf
  exact Nat.ne_of_lt (hb f hf)

/-- Witness for `add_fund_inserts_unvalidated` on the sample store. -/
theorem add_fund_inserts_unvalidated_witness :
    (∀ f ∈ sampleStore.funds, f.id < sampleStore.nextId) ∧
    (add_fund blankInput sampleStore).funds =
      sampleStore.funds ++ [mkFund sampleStore.nextId blankInput] :=
  ⟨by decide,
   (add_fund_inserts_unvalidated blankInput sampleStore (by decide)).1⟩

/-- C5 counterexample: submitting the new-fund form with the stage
selectbox moved to "7 - Rejected" creates a record whose stage is not the
first pipeline stage. -/
theorem new_fund_first_stage_cex :
    rejForm.stage ∈ STAGES ∧
    ((add_fund (new_fund_record rejForm) emptyStore).funds.map
      fun f => f.stage) = [some "7 - Rejected"] ∧
    some "7 - Rejected" ≠ some "1 - Assigned" := by decide

/-- C5 amended: every record newly created by the add-fund operation has
all five milestone dates empty, and its stage equal to whatever stage the
form's selectbox held on submit — the selectbox defaults to the first
pipeline stage but accepts any member of the vocabulary. -/
theorem new_fund_dates_empty (form : NewFundForm) (s : Store) (f : Fund)
    (hf : f ∈ (add_fund (new_fund_record form) s).funds)
    (hnew : f ∉ s.funds) :
    (∀ c, getMilestone f c = none) ∧ f.stage = some form.stage := by
  simp only [add_fund, List.mem_append, List.mem_singleton] at hf
  rcases hf with hf | rfl
  · exact absurd hf hnew
  · exact ⟨fun c => by cases c <;> rfl, rfl⟩

/-- Witness for `new_fund_dates_empty`: the default form on the empty
store. -/
theorem new_fund_dates_empty_witness :
    mkFund 1 (new_fund_record baseForm) ∈
      (add_fund (new_fund_record baseForm) emptyStore).funds ∧
    mkFund 1 (new_fund_record baseForm) ∉ emptyStore.funds ∧
    (mkFund 1 (new_fund_record baseForm)).stage = some baseForm.stage :=
  ⟨by decide, by decide,
   (new_fund_dates_empty baseForm emptyStore
      (mkFund 1 (new_fund_record baseForm)) (by decide) (by decide)).2⟩

theorem applyField_id (f : Fund) (fs : FieldSet) :
    (applyField f fs).id = f.id := by cases fs <;> rfl

theorem applyField_milestone (f : Fund) (fs : FieldSet) (c : MilestoneCol) :
    getMilestone (applyField f fs) c = getMilestone f c := by
  cases fs <;> cases c <;> rfl

theorem getMilestone_stageSet (f : Fund) (v : Option String)
    (c : MilestoneCol) :
    getMilestone { f with stage := v } c = getMilestone f c := by
  cases c <;> rfl

theorem getMilestone_setMilestone_ne (f : Fund) (c c2 : MilestoneCol)
    (v : Option String) (h : c2 ≠ c) :
    getMilestone (setMilestone f c v) c2 = getMilestone f c2 := by
  cases c <;> cases c2 <;> first | rfl | exact absurd rfl h

/-- A successful lookup in `DATE_STAMP_FOR_STAGE` exhibits a member of the
table. -/
theorem mem_of_stamp_lookup (st : String) (c : MilestoneCol)
    (h : DATE_STAMP_FOR_STAGE.lookup st = some c) :
    (st, c) ∈ DATE_STAMP_FOR_STAGE := by
  have gen : ∀ l : List (String × MilestoneCol),
      l.lookup st = some c → (st, c) ∈ l := by
    intro l
    induction l with
    | nil => intro hx; simp [List.lookup] at hx
    | cons p t ih =>
        intro hx
        obtain ⟨k, v⟩ := p
        simp only [List.lookup] at hx
        cases hk : st == k with
        | false =>
            simp only [hk] at hx
            exact List.mem_cons_of_mem _ (ih hx)
        | true =>
            simp only [hk] at hx
            obtain rfl : v = c := Option.some.inj hx
            have hek : st = k := beq_iff_eq.mp hk
            subst hek
            exact List.mem_cons_self _ _
  exact gen DATE_STAMP_FOR_STAGE h

/-- The milestone columns named by `DATE_STAMP_FOR_STAGE` are pairwise
distinct, so a column determines its stage. -/
theorem stamp_col_inj (st st2 : String) (c : MilestoneCol)
    (h1 : (st, c) ∈ DATE_STAMP_FOR_STAGE)
    (h2 : (st2, c) ∈ DATE_STAMP_FOR_STAGE) : st2 = st := by
  cases c <;> simp [DATE_STAMP_FOR_STAGE, Prod.ext_iff] at h1 h2 <;>
    simp [h1, h2]

/-- `update_stage` preserves the AUTOINCREMENT counter. -/
theorem update_stage_nextId (rid : Nat) (st today : String) (s : Store) :
    (update_stage rid st today s).nextId = s.nextId := by
  cases hcl : DATE_STAMP_FOR_STAGE.lookup st <;>
    simp [update_stage, hcl, set_stage, stamp_date]

/-- Row-level description of `update_stage`: every row of the result comes
from a stored row with the same id; rows with other ids are untouched, and
the row with the targeted id gets the new stage, the stamped current date
on the stage's milestone column (when the stage has one), and its other
milestone columns unchanged. -/
theorem update_stage_mem_decomp (rid : Nat) (st today : String) (s : Store)
    (f : Fund) (hf : f ∈ (update_stage rid st today s).funds) :
    ∃ f0 ∈ s.funds, f.id = f0.id ∧
      ((f0.id ≠ rid ∧ f = f0) ∨
       (f0.id = rid ∧ f.stage = some st ∧
        ∀ c2 : MilestoneCol,
          (DATE_STAMP_FOR_STAGE.lookup st = some c2 →
            getMilestone f c2 = some today) ∧
          (¬ DATE_STAMP_FOR_STAGE.lookup st = some c2 →
            getMilestone f c2 = getMilestone f0 c2))) := by
  cases hcl : DATE_STAMP_FOR_STAGE.lookup st with
  | none =>
      simp only [update_stage, hcl, set_stage, List.mem_map] at hf
      obtain ⟨f0, hf0, rfl⟩ := hf
      by_cases h : f0.id = rid
      · refine ⟨f0, hf0, by simp [h], Or.inr ⟨h, by simp [h], ?_⟩⟩
        intro c2
        refine ⟨fun hx => Option.noConfusion hx, fun _ => ?_⟩
        simp only [h, if_pos]
        exact getMilestone_stageSet f0 (some st) c2
      · exact ⟨f0, hf0, by simp [h], Or.inl ⟨h, by simp [h]⟩⟩
  | some c =>
      simp only [update_stage, hcl, stamp_date, set_stage, List.map_map,
        List.mem_map, Function.comp] at hf
      obtain ⟨f0, hf0, rfl⟩ := hf
      by_cases h : f0.id = rid
      · refine ⟨f0, hf0, by simp [h, setMilestone_id],
          Or.inr ⟨h, by simp [h, setMilestone_stage], ?_⟩⟩
        intro c2
        refine ⟨fun hx => ?_, fun hx => ?_⟩
        · obtain rfl : c = c2 := Option.some.inj hx
          simp [h, getMilestone_setMilestone]
        · have hne : c2 ≠ c := fun he => hx (by rw [he])
          cases c <;> cases c2 <;>
            first
              | exact absurd rfl hne
              | simp [h, setMilestone, getMilestone]
      · exact ⟨f0, hf0, by simp [h], Or.inl ⟨h, by simp [h]⟩⟩

/-- One UI operation preserves both the id-bound and the
milestone-provenance invariant. -/
theorem gStep_inv (gs : GStore) (op : Op) (hb : IdBound gs)
    (hm : MilestoneInv gs) :
    IdBound (gStep gs op) ∧ MilestoneInv (gStep gs op) := by
  cases op with
  | addFund form =>
      constructor
      · simp only [IdBound, gStep, add_fund, List.mem_append,
          List.mem_singleton]
        rintro f (hf | rfl)
        · exact Nat.lt_succ_of_lt (hb f hf)
        · exact Nat.lt_succ_self _
      · simp only [MilestoneInv, gStep, add_fund, List.mem_append,
          List.mem_singleton]
        rintro f (hf | rfl) st c hc hd
        · have hlt := hb f hf
          rw [if_neg (Nat.ne_of_lt hlt)]
          exact hm f hf st c hc hd
        · exact absurd hd
            (by cases c <;> simp [mkFund, new_fund_record, getMilestone])
  | advanceStage rid st today =>
      constructor
      · simp only [IdBound, gStep, update_stage_nextId]
        intro f hf
        obtain ⟨f0, hf0, hid, _⟩ :=
          update_stage_mem_decomp rid st today gs.store f hf
        rw [hid]
        exact hb f0 hf0
      · simp only [MilestoneInv, gStep]
        intro f hf st2 c2 hc2 hd
        obtain ⟨f0, hf0, hid, hcase⟩ :=
          update_stage_mem_decomp rid st today gs.store f hf
        rcases hcase with ⟨hne, rfl⟩ | ⟨heq, _, hdates⟩
        · have hcond : ¬ (hasId gs.store rid = true ∧ f.id = rid) :=
            fun hcond => hne hcond.2
          rw [if_neg hcond]
          exact hm f hf0 st2 c2 hc2 hd
        · have hhas : hasId gs.store rid = true := by
            simp only [hasId, List.any_eq_true]
            exact ⟨f0, hf0, beq_iff_eq.mpr heq⟩
          rw [hid, heq, if_pos ⟨hhas, rfl⟩]
          by_cases hcc : DATE_STAMP_FOR_STAGE.lookup st = some c2
          · have hst : st2 = st :=
              stamp_col_inj st st2 c2 (mem_of_stamp_lookup st c2 hcc) hc2
            rw [hst]
            exact List.mem_cons_self _ _
          · rw [(hdates c2).2 hcc] at hd
            have hold := hm f0 hf0 st2 c2 hc2 hd
            rw [heq] at hold
            exact List.mem_cons_of_mem _ hold
  | editField rid fs =>
      constructor
      · simp only [IdBound, gStep, update_field]
        intro f hf
        simp only [List.mem_map] at hf
        obtain ⟨f0, hf0, rfl⟩ := hf
        by_cases h : f0.id = rid
        · rw [if_pos h, applyField_id]
          exact hb f0 hf0
        · rw [if_neg h]
          exact hb f0 hf0
      · simp only [MilestoneInv, gStep, update_field]
        intro f hf
        simp only [List.mem_map] at hf
        obtain ⟨f0, hf0, rfl⟩ := hf
        intro st c hc hd
        by_cases h : f0.id = rid
        · rw [if_pos h, applyField_milestone] at hd
          rw [if_pos h, applyField_id]
          exact hm f0 hf0 st c hc hd
        · rw [if_neg h] at hd ⊢
          exact hm f0 hf0 st c hc hd
  | deleteFund rid =>
      constructor
      · simp only [IdBound, gStep, delete_fund]
        intro f hf
        exact hb f (List.mem_of_mem_filter hf)
      · simp only [MilestoneInv, gStep, delete_fund]
        intro f hf st c hc hd
        exact hm f (List.mem_of_mem_filter hf) st c hc hd

/-- Both invariants hold in every state reachable from the fresh database
by UI operations. -/
theorem gRun_inv (ops : List Op) :
    IdBound (gRun ops) ∧ MilestoneInv (gRun ops) := by
  suffices h : ∀ gs, IdBound gs → MilestoneInv gs →
      IdBound (ops.foldl gStep gs) ∧ MilestoneInv (ops.foldl gStep gs) by
    refine h gInit (fun f hf => ?_) (fun f hf => ?_) <;>
      exact absurd hf (List.not_mem_nil f)
  induction ops with
  | nil => exact fun gs h1 h2 => ⟨h1, h2⟩
  | cons op t ih =>
      intro gs h1 h2
      have hstep := gStep_inv gs op h1 h2
      exact ih _ hstep.1 hstep.2

/-- C6: in every state reachable from the empty store by the public
operations (add fund, advance stage, edit fields, delete), a stored
record's milestone date for a stage is non-empty only if that record's
stage has been set to that stage at least once (at creation or by a stage
update). -/
theorem milestone_requires_reach (ops : List Op) (f : Fund)
    (hf : f ∈ (gRun ops).store.funds) (st : String) (c : MilestoneCol)
    (hc : (st, c) ∈ DATE_STAMP_FOR_STAGE)
    (hd : getMilestone f c ≠ none) :
    st ∈ (gRun ops).reached f.id :=
  (gRun_inv ops).2 f hf st c hc hd

/-- Witness for `milestone_requires_reach`: create a fund on the default
form, advance it to Analyst Review; its stamped analyst-review date is
witnessed by the stage having been reached. -/
theorem milestone_requires_reach_witness :
    demoFund ∈ (gRun demoOps).store.funds ∧
    ("3 - Analyst Review", MilestoneCol.analyst_review_date) ∈
      DATE_STAMP_FOR_STAGE ∧
    getMilestone demoFund MilestoneCol.analyst_review_date ≠ none ∧
    "3 - Analyst Review" ∈ (gRun demoOps).reached demoFund.id :=
  ⟨by decide, by decide, by decide,
   milestone_requires_reach demoOps demoFund (by decide) "3 - Analyst Review"
     MilestoneCol.analyst_review_date (by decide) (by decide)⟩

/-- C8: `days_since` is total — no input makes it raise — and behaves as
specified: an empty input yields empty, an input the parser rejects yields
empty, and a parsable non-empty input yields the elapsed whole days
between the parsed day and the evaluation day, in particular 0 when the
input denotes the evaluation day itself. -/
theorem days_since_total_spec (parse : String → Option Int) (today : Int)
    (s : String) :
    (s = "" → days_since parse today s = none) ∧
    (parse s = none → days_since parse today s = none) ∧
    (∀ d : Int, s ≠ "" → parse s = some d →
      days_since parse today s = some (today - d)) ∧
    (s ≠ "" → parse s = some today → days_since parse today s = some 0) := by
  refine ⟨?_, ?_, ?_, ?_⟩
  · intro h
    simp [days_since, h]
  · intro h
    by_cases he : s = "" <;> simp [days_since, he, h]
  · intro d hne hp
    simp [days_since, hne, hp]
  · intro hne hp
    simp [days_since, hne, hp]

/-- Witness for `days_since_total_spec` with the concrete demo parser:
on the day the assigned date denotes, `days_since` of that date is 0, and
`days_since` of the empty string is empty. -/
theorem days_since_total_spec_witness :
    ("2024-01-10" ≠ "" ∧ parseDemo "2024-01-10" = some 19732 ∧
      days_since parseDemo 19732 "2024-01-10" = some 0) ∧
    days_since parseDemo 19732 "" = none :=
  ⟨⟨by decide, by decide,
    (days_since_total_spec parseDemo 19732 "2024-01-10").2.2.2 (by decide)
      (by decide)⟩,
   (days_since_total_spec parseDemo 19732 "").1 rfl⟩

/-- C9: when every stored stage belongs to the vocabulary, the default
filter state (all stages selected, all text inputs empty) keeps every
loaded row, in the loaded order; `load_data` is sorted by descending id
(reverse-chronological AUTOINCREMENT ids) and is a permutation of the
stored rows; and the mask the code builds incrementally equals the
conjunction of the four clauses, an absent clause passing every row. -/
theorem filter_default_returns_all (s : Store)
    (hst : ∀ f ∈ s.funds, ∃ st ∈ STAGES, f.stage = some st) :
    filtered emptyFilter (load_data s) = load_data s ∧
    List.Sorted idGe (load_data s) ∧
    List.Perm (load_data s) s.funds ∧
    (∀ spec : FilterSpec, ∀ f : Fund,
      passes spec f = passes_conj spec f) := by
  refine ⟨?_, List.sorted_insertionSort idGe s.funds,
    List.perm_insertionSort idGe s.funds, ?_⟩
  · refine List.filter_eq_self.mpr ?_
    intro f hf
    have hfs : f ∈ s.funds :=
      (List.perm_insertionSort idGe s.funds).mem_iff.mp hf
    obtain ⟨st, hstm, hfe⟩ := hst f hfs
    simp [passes, emptyFilter, stageMem, hfe, hstm]
  · intro spec f
    by_cases ha : spec.analyst = "" <;> by_cases hv : spec.vp = "" <;>
      by_cases ht : spec.text = "" <;>
        simp [passes, passes_conj, ha, hv, ht, Bool.and_assoc]

/-- Witness for `filter_default_returns_all` on the sample store. -/
theorem filter_default_returns_all_witness :
    (∀ f ∈ sampleStore.funds, ∃ st ∈ STAGES, f.stage = some st) ∧
    filtered emptyFilter (load_data sampleStore) = load_data sampleStore :=
  ⟨by decide, (filter_default_returns_all sampleStore (by decide)).1⟩

end FundReview
